import Mathlib

/-!
Shallow embedding of `migrate.py` (SQLite-to-PostgreSQL dump converter).

Lines of text are modelled as `List Char`.  Python `str.replace`,
`str.find`, `str.strip`, slicing and `startswith`/`endswith` are embedded
as executable functions on `List Char` with Python semantics.  The
module-level loop of the script becomes an explicit state machine
(`St`, `step`, `runLines`, `run`); the `NameError` that Python raises on
reading the unassigned loop variable `a_line` is modelled by `aLine :
Option (List Char)` together with `Except Unit`.
-/

namespace Migrate

/-- Python `pat in s` / `s.find(pat) >= 0`: index of the first occurrence
of `pat` in `l`, if any. -/
def findSub (pat : List Char) : List Char → Option Nat
  | [] => if pat.isPrefixOf ([] : List Char) then some 0 else none
  | c :: cs =>
    if pat.isPrefixOf (c :: cs) then some 0
    else (findSub pat cs).map (· + 1)

/-- Python `s.find(pat) >= 0`. -/
def containsSub (pat l : List Char) : Bool :=
  (findSub pat l).isSome

/-- Python `s.find(pat, i)`: search starting at index `i`, absolute result. -/
def findSubFrom (pat : List Char) (i : Nat) (l : List Char) : Option Nat :=
  (findSub pat (l.drop i)).map (· + i)

/-- Python slice `l[a:b]` for `a ≤ b` (clamping at the end of the list). -/
def slice (a b : Nat) (l : List Char) : List Char :=
  (l.drop a).take (b - a)

/-- Python whitespace (the ASCII characters stripped by `str.strip`). -/
def isPyWs (c : Char) : Bool :=
  c = ' ' || c = '\t' || c = '\n' || c = '\r' || c = '\x0b' || c = '\x0c'

/-- Python `str.strip()`. -/
def pyStrip (l : List Char) : List Char :=
  ((l.dropWhile isPyWs).reverse.dropWhile isPyWs).reverse

/-- Fuelled worker for `replaceAll`; fuel `≥ l.length` suffices because every
step consumes at least one character of `l`. -/
def replaceAllF (pat rep : List Char) : Nat → List Char → List Char
  | _, [] => []
  | 0, l => l
  | fuel + 1, c :: cs =>
    if pat ≠ [] ∧ pat.isPrefixOf (c :: cs) then
      rep ++ replaceAllF pat rep fuel (cs.drop (pat.length - 1))
    else
      c :: replaceAllF pat rep fuel cs

/-- Python `s.replace(pat, rep)` (for nonempty `pat`): replace every
non-overlapping occurrence, scanning left to right. -/
def replaceAll (pat rep l : List Char) : List Char :=
  replaceAllF pat rep l.length l

/-! ### The constants of `migrate.py` (lines 52-82) -/

def CONST_SERIAL_PRIMARY_KEY : List Char := "SERIAL PRIMARY KEY,\n".toList
def CONST_PRIMARY_KEY : List Char := "PRIMARY KEY(".toList
def CONST_FOREIGN_KEY : List Char := "FOREIGN KEY".toList
def CONST_CREATE_TABLE : List Char := "CREATE TABLE".toList
def CONST_CREATE_TRIGGER_START : List Char := "CREATE TRIGGER".toList
def CONST_CREATE_TRIGGER_END : List Char := "END;\n".toList
def CONST_CREATE_VIEW_START : List Char := "CREATE VIEW".toList
def CONST_CREATE_VIEW_END : List Char := ";\n".toList
def CONST_BOOL_TRUE : List Char := "TRUE".toList
def CONST_BOOL_FALSE : List Char := "FALSE".toList
def CONST_EXISTS : List Char := "EXISTS ".toList
def CONST_AUTOINCREMENT : List Char := " AUTOINCREMENT".toList
def CONST_UNSIGNED : List Char := "UNSIGNED".toList
def CONST_DEFAULT : List Char := " DEFAUL".toList
def CONST_DATATYPE_ENUM : List Char := "ENUM".toList
def CONST_DATATYPE_YEAR : List Char := "YEAR".toList
def CONST_DATATYPE_TEXT : List Char := "TEXT".toList
def CONST_DATATYPE_DATEIME : List Char := "DATETIME".toList
def CONST_DATATYPE_TIMESTAMP : List Char := "TIMESTAMP".toList
def CONST_DATATYPE_BOOLEAN : List Char := "BOOLEAN".toList
def CONST_DATATYPE_INT_DEFAULT : List Char := "INT DEFAULT".toList
def CONST_DATATYPE_MEDIUMINT : List Char := "MEDIUMINT".toList
def CONST_DATATYPE_INTEGER : List Char := "INTEGER".toList
def CONST_DATATYPE_TINYINT : List Char := "TINYINT".toList
def CONST_DATATYPE_SMALLINT : List Char := "SMALLINT".toList
def CONST_DATATYPE_BLOB : List Char := "BLOB".toList
def CONST_DATATYPE_BYTEA : List Char := "BYTEA".toList

/-- The table-block terminator test `line.startswith(");")` (lines 184, 231). -/
def CONST_TABLE_END : List Char := ");".toList

/-- The literal pieces of the deferred emission (line 265). -/
def CONST_ALTER_TABLE : List Char := "ALTER TABLE ".toList
def CONST_ADD : List Char := " ADD ".toList
def CONST_COMMIT : List Char := "COMMIT;\n".toList

/-! ### The helper functions of `migrate.py` -/

/-- `get_table_name` (lines 93-101): the text between `"EXISTS "` and the
first `" ("`, or `""` when the pattern is absent. -/
def get_table_name (a_line : List Char) : List Char :=
  match findSub CONST_EXISTS a_line with
  | none => []
  | some pt0 =>
    let pt1 := pt0 + CONST_EXISTS.length
    match findSub (" (".toList) a_line with
    | none => []
    | some pt2 => if pt2 > pt1 then slice pt1 pt2 a_line else []

/-- `modify_primary_key_syntax` (lines 103-109): keep the text through the
first space and append `SERIAL PRIMARY KEY,\n`. -/
def modify_primary_key_syntax (field_name : List Char) : List Char :=
  match findSub ([' '] : List Char) field_name with
  | none => field_name
  | some pt1 => field_name.take (pt1 + 1) ++ CONST_SERIAL_PRIMARY_KEY

/-- The BOOLEAN/TRUE/FALSE rewrite (lines 127-132). -/
def boolStage (l : List Char) : List Char :=
  if containsSub CONST_DATATYPE_BOOLEAN l then
    let l1 := replaceAll CONST_DATATYPE_BOOLEAN CONST_DATATYPE_INTEGER l
    if containsSub CONST_BOOL_TRUE l1 then replaceAll CONST_BOOL_TRUE ['1'] l1
    else if containsSub CONST_BOOL_FALSE l1 then replaceAll CONST_BOOL_FALSE ['0'] l1
    else l1
  else l

/-- The missing-datatype patch (lines 143-145): if the 7 characters after the
first space read `" DEFAUL"`, insert `TEXT` after that space. -/
def defaulPatch (l : List Char) : List Char :=
  match findSub ([' '] : List Char) l with
  | none => l
  | some pt =>
    if pt > 0 ∧ slice (pt + 1) (pt + 8) l = CONST_DEFAULT then
      l.take (pt + 1) ++ CONST_DATATYPE_TEXT ++ l.drop (pt + 1)
    else l

/-- The per-line token rewrites (lines 122-145), in the source order. -/
def rewriteLine (raw : List Char) : List Char :=
  let l := replaceAll ['\r'] [] raw
  let l := pyStrip (replaceAll ['\t'] [' '] l) ++ ['\n']
  let l := replaceAll ['"'] [] l
  let l := replaceAll CONST_DATATYPE_DATEIME CONST_DATATYPE_TIMESTAMP l
  let l := replaceAll CONST_UNSIGNED [] l
  let l := boolStage l
  let l := replaceAll CONST_DATATYPE_ENUM CONST_DATATYPE_TEXT l
  let l := replaceAll CONST_DATATYPE_YEAR CONST_DATATYPE_TEXT l
  let l := replaceAll CONST_DATATYPE_INT_DEFAULT
             (CONST_DATATYPE_INTEGER ++ (" DEFAULT".toList)) l
  let l := replaceAll CONST_DATATYPE_MEDIUMINT CONST_DATATYPE_INTEGER l
  let l := replaceAll CONST_DATATYPE_TINYINT CONST_DATATYPE_SMALLINT l
  let l := replaceAll CONST_DATATYPE_BLOB CONST_DATATYPE_BYTEA l
  defaulPatch l

/-! ### Table-block finalization (lines 184-243) -/

/-- One line of the PRIMARY-KEY scan (lines 195-207): the extracted field
name when the line carries `PRIMARY KEY(` with a following space and the
line mentions ` AUTOINCREMENT`. -/
def pkMatch (a_line : List Char) : Option (List Char) :=
  match findSub CONST_PRIMARY_KEY a_line with
  | none => none
  | some pt0 =>
    let pt1 := pt0 + CONST_PRIMARY_KEY.length
    match findSubFrom [' '] pt1 a_line with
    | none => none
    | some pt2 =>
      if containsSub CONST_AUTOINCREMENT a_line then some (slice pt1 pt2 a_line)
      else none

/-- The scan of lines 190-213: blank (set to `""`) the first matching line
and return the new buffer with the captured field name. -/
def pkScanBlank : List (List Char) → Option (List (List Char) × List Char)
  | [] => none
  | l :: rest =>
    match pkMatch l with
    | some fname => some (([] : List Char) :: rest, fname)
    | none => (pkScanBlank rest).map (fun p => (l :: p.1, p.2))

/-- The forward rewrite of lines 218-224: rewrite the first line mentioning
the captured field name. -/
def pkRewrite (fname : List Char) : List (List Char) → List (List Char)
  | [] => []
  | l :: rest =>
    if containsSub fname l then modify_primary_key_syntax l :: rest
    else l :: pkRewrite fname rest

/-- A line the comma scan of lines 229-234 skips: deleted (`""`) or a
terminator line. -/
def commaSkip (l : List Char) : Bool :=
  l = [] || CONST_TABLE_END.isPrefixOf l

/-- Remove the trailing `,\n`, leaving `\n` (line 232). -/
def commaAdjust (l : List Char) : List Char :=
  l.dropLast.dropLast ++ ['\n']

/-- The comma scan on the reversed buffer: skip `commaSkip` lines, fix the
first other line if it ends in `,\n`, and stop. -/
def commaFixRev : List (List Char) → List (List Char)
  | [] => []
  | l :: rest =>
    if commaSkip l then l :: commaFixRev rest
    else (if ([',', '\n'] : List Char).isSuffixOf l then commaAdjust l else l) :: rest

/-- The trailing-comma fix (lines 229-234). -/
def commaFix (buf : List (List Char)) : List (List Char) :=
  (commaFixRev buf.reverse).reverse

/-- Whole-block finalization: PRIMARY-KEY blank + rewrite, then comma fix. -/
def finalizeBuf (buf : List (List Char)) : List (List Char) :=
  let buf1 :=
    match pkScanBlank buf with
    | none => buf
    | some (b, fname) => if fname ≠ [] then pkRewrite fname b else b
  commaFix buf1

/-! ### The transducer state and driver loop (lines 84-267) -/

/-- The module-level mutable state of `migrate.py`.  `aLine` models the
Python loop variable `a_line`, which leaks out of the finalization loops;
`none` means it has never been assigned, so reading it raises `NameError`. -/
structure St where
  currentTableName : List Char
  foundTable : Bool
  foundTrigger : Bool
  foundView : Bool
  buffer : List (List Char)
  fk_buffer : List (List Char × List Char)
  aLine : Option (List Char)
  output : List (List Char)
  tableCount : Nat

/-- The state at the top of the script (lines 84-91). -/
def initSt : St :=
  { currentTableName := [], foundTable := false, foundTrigger := false
    foundView := false, buffer := [], fk_buffer := [], aLine := none
    output := [], tableCount := 0 }

/-- One iteration of the `for line in sqlite_f` loop (lines 119-258).
`Except.error ()` models the `NameError` raised when the trigger/view
branch reads the never-assigned variable `a_line`. -/
def step (s : St) (raw : List Char) : Except Unit St :=
  let line := rewriteLine raw
  let isCT := CONST_CREATE_TABLE.isPrefixOf line
  let fTable := if isCT then true else s.foundTable
  let tname := if isCT then get_table_name line else s.currentTableName
  let buffer0 := if isCT then ([] : List (List Char)) else s.buffer
  let capture := containsSub CONST_FOREIGN_KEY line && !(tname.isEmpty)
  let line1 := if capture then ([] : List Char) else line
  let fkBuf := if capture then s.fk_buffer ++ [(tname, line)] else s.fk_buffer
  let fTrigger := if CONST_CREATE_TRIGGER_START.isPrefixOf line1 then true else s.foundTrigger
  let fView := if CONST_CREATE_VIEW_START.isPrefixOf line1 then true else s.foundView
  if fTable then
    let buffer1 := buffer0 ++ [line1]
    if CONST_TABLE_END.isPrefixOf line1 then
      let buf := finalizeBuf buffer1
      Except.ok { currentTableName := [], foundTable := false, foundTrigger := fTrigger
                  foundView := fView, buffer := buf, fk_buffer := fkBuf
                  aLine := some (buf.getLastD [])
                  output := s.output ++ buf.filter (fun x => !x.isEmpty)
                  tableCount := s.tableCount + 1 }
    else
      Except.ok { currentTableName := tname, foundTable := true, foundTrigger := fTrigger
                  foundView := fView, buffer := buffer1, fk_buffer := fkBuf
                  aLine := s.aLine, output := s.output, tableCount := s.tableCount }
  else if fTrigger then
    match s.aLine with
    | none => Except.error ()
    | some al =>
      Except.ok { currentTableName := tname, foundTable := fTable
                  foundTrigger := if containsSub CONST_CREATE_TRIGGER_END al then false else true
                  foundView := fView, buffer := buffer0, fk_buffer := fkBuf
                  aLine := s.aLine, output := s.output, tableCount := s.tableCount }
  else if fView then
    match s.aLine with
    | none => Except.error ()
    | some al =>
      Except.ok { currentTableName := tname, foundTable := fTable, foundTrigger := fTrigger
                  foundView := if containsSub CONST_CREATE_VIEW_END al then false else true
                  buffer := buffer0, fk_buffer := fkBuf
                  aLine := s.aLine, output := s.output, tableCount := s.tableCount }
  else
    Except.ok { currentTableName := tname, foundTable := fTable, foundTrigger := fTrigger
                foundView := fView, buffer := buffer0, fk_buffer := fkBuf, aLine := s.aLine
                output := if line1 ≠ [] then s.output ++ [line1] else s.output
                tableCount := s.tableCount }

/-- Fold `step` over the input lines. -/
def runLines : St → List (List Char) → Except Unit St
  | s, [] => Except.ok s
  | s, l :: ls =>
    match step s l with
    | Except.error e => Except.error e
    | Except.ok s1 => runLines s1 ls

/-- The punctuation normalization applied to one deferred entry
(lines 263-264). -/
def fkNormalize (fk : List Char) : List Char :=
  let fk := if (['\t'] : List Char).isPrefixOf fk then fk.drop 1 else fk
  if ([',', '\n'] : List Char).isSuffixOf fk then fk.dropLast.dropLast ++ [';', '\n'] else fk

/-- The deferred `ALTER TABLE` emission (lines 260-265). -/
def fkEmit : List (List Char × List Char) → List (List Char)
  | [] => []
  | (t, fk) :: rest => (CONST_ALTER_TABLE ++ t ++ CONST_ADD ++ fkNormalize fk) :: fkEmit rest

/-- The whole run: the main loop over the input lines, then the deferred
foreign-key emission and the final `COMMIT;` (lines 119-267).  The result
is the list of strings written to the output file. -/
def run (input : List (List Char)) : Except Unit (List (List Char)) :=
  match runLines initSt input with
  | Except.error e => Except.error e
  | Except.ok s => Except.ok (s.output ++ fkEmit s.fk_buffer ++ [CONST_COMMIT])

end Migrate

namespace Migrate

/-! ### General lemmas about the string primitives -/

theorem containsSub_cons (pat : List Char) (c : Char) (cs : List Char) :
    containsSub pat (c :: cs) = (pat.isPrefixOf (c :: cs) || containsSub pat cs) := by
  simp only [containsSub, findSub]
  by_cases h : pat.isPrefixOf (c :: cs) = true
  · simp [h]
  · rw [Bool.not_eq_true] at h
    simp [h]

theorem replaceAllF_of_not_contains (pat rep : List Char) :
    ∀ (fuel : Nat) (l : List Char), containsSub pat l = false →
      replaceAllF pat rep fuel l = l := by
  intro fuel
  induction fuel with
  | zero => intro l _; cases l <;> rfl
  | succ n ih =>
    intro l h
    cases l with
    | nil => rfl
    | cons c cs =>
      have hc := containsSub_cons pat c cs
      rw [h] at hc
      have h1 : pat.isPrefixOf (c :: cs) = false := by
        cases hp : pat.isPrefixOf (c :: cs) <;> simp [hp] at hc ⊢
      have h2 : containsSub pat cs = false := by
        cases hcs : containsSub pat cs <;> simp [hcs] at hc ⊢
      rw [replaceAllF, if_neg, ih cs h2]
      intro hand
      rw [h1] at hand
      exact Bool.false_ne_true hand.2

theorem replaceAll_of_not_contains (pat rep l : List Char)
    (h : containsSub pat l = false) : replaceAll pat rep l = l :=
  replaceAllF_of_not_contains pat rep l.length l h

theorem contains_of_prefix_drop (pat : List Char) :
    ∀ (l : List Char) (m : Nat), pat.isPrefixOf (l.drop m) = true →
      containsSub pat l = true := by
  intro l
  induction l with
  | nil =>
    intro m h
    rw [List.drop_nil] at h
    cases pat with
    | nil => rfl
    | cons p ps => exact absurd h (by simp [List.isPrefixOf])
  | cons c cs ih =>
    intro m h
    cases m with
    | zero =>
      rw [List.drop_zero] at h
      rw [containsSub_cons, h, Bool.true_or]
    | succ m =>
      have h2 : containsSub pat cs = true := ih m h
      rw [containsSub_cons, h2, Bool.or_true]

theorem contains_of_slice {a b : Nat} {l pat : List Char}
    (h : slice a b l = pat) : containsSub pat l = true := by
  have h1 : pat <+: l.drop a := by
    rw [← h]
    exact List.take_prefix _ _
  exact contains_of_prefix_drop pat l a (List.isPrefixOf_iff_prefix.mpr h1)

theorem commaFixRev_skip :
    ∀ (xs : List (List Char)) (l : List Char) (ys : List (List Char)),
      (∀ x ∈ xs, commaSkip x = true) → commaSkip l = false →
      commaFixRev (xs ++ l :: ys) =
        xs ++ (if ([',', '\n'] : List Char).isSuffixOf l then commaAdjust l else l) :: ys := by
  intro xs
  induction xs with
  | nil =>
    intro l ys _ hl
    rw [List.nil_append, commaFixRev, if_neg (by rw [hl]; exact Bool.false_ne_true)]
    rfl
  | cons x xs ih =>
    intro l ys hxs hl
    rw [List.cons_append, commaFixRev, if_pos (hxs x (List.mem_cons_self x xs)),
      ih l ys (fun y hy => hxs y (List.mem_cons_of_mem x hy)) hl]
    rfl

theorem ct_not_pre_trg (t : List Char) :
    CONST_CREATE_TABLE.isPrefixOf (CONST_CREATE_TRIGGER_START ++ t) = false := rfl

theorem ct_not_pre_view (t : List Char) :
    CONST_CREATE_TABLE.isPrefixOf (CONST_CREATE_VIEW_START ++ t) = false := rfl

theorem trg_not_pre_view (t : List Char) :
    CONST_CREATE_TRIGGER_START.isPrefixOf (CONST_CREATE_VIEW_START ++ t) = false := rfl

end Migrate

namespace Migrate

/-! ### Lemmas about the driver step and the line rewriter -/

theorem isEmpty_false_of_ne {l : List Char} (h : l ≠ []) : l.isEmpty = false := by
  cases l with
  | nil => exact absurd rfl h
  | cons c cs => rfl

theorem trg_pre_nil : CONST_CREATE_TRIGGER_START.isPrefixOf ([] : List Char) = false := rfl

theorem view_pre_nil : CONST_CREATE_VIEW_START.isPrefixOf ([] : List Char) = false := rfl

theorem tend_pre_nil : CONST_TABLE_END.isPrefixOf ([] : List Char) = false := rfl

/-- No occurrence, in `l`, of any token the per-line rewriter replaces. -/
abbrev cleanLine (l : List Char) : Prop :=
  containsSub ['\r'] l = false ∧ containsSub ['\t'] l = false ∧
  containsSub ['"'] l = false ∧
  containsSub CONST_DATATYPE_DATEIME l = false ∧ containsSub CONST_UNSIGNED l = false ∧
  containsSub CONST_DATATYPE_BOOLEAN l = false ∧ containsSub CONST_DATATYPE_ENUM l = false ∧
  containsSub CONST_DATATYPE_YEAR l = false ∧ containsSub CONST_DATATYPE_INT_DEFAULT l = false ∧
  containsSub CONST_DATATYPE_MEDIUMINT l = false ∧ containsSub CONST_DATATYPE_TINYINT l = false ∧
  containsSub CONST_DATATYPE_BLOB l = false ∧ containsSub CONST_DEFAULT l = false

theorem boolStage_id (l : List Char) (h : containsSub CONST_DATATYPE_BOOLEAN l = false) :
    boolStage l = l := by
  simp [boolStage, h]

theorem defaulPatch_id (l : List Char) (h : containsSub CONST_DEFAULT l = false) :
    defaulPatch l = l := by
  unfold defaulPatch
  split
  · rfl
  · rw [if_neg]
    rintro ⟨hpt, hsl⟩
    rw [contains_of_slice hsl] at h
    exact absurd h (by simp)

theorem rewriteLine_id (s : List Char) (hcl : cleanLine (s ++ ['\n']))
    (hstr : pyStrip (s ++ ['\n']) = s) :
    rewriteLine (s ++ ['\n']) = s ++ ['\n'] := by
  obtain ⟨h1, h2, h3, h4, h5, h6, h7, h8, h9, h10, h11, h12, h13⟩ := hcl
  simp only [rewriteLine]
  rw [replaceAll_of_not_contains _ _ _ h1, replaceAll_of_not_contains _ _ _ h2, hstr,
    replaceAll_of_not_contains _ _ _ h3, replaceAll_of_not_contains _ _ _ h4,
    replaceAll_of_not_contains _ _ _ h5, boolStage_id _ h6,
    replaceAll_of_not_contains _ _ _ h7, replaceAll_of_not_contains _ _ _ h8,
    replaceAll_of_not_contains _ _ _ h9, replaceAll_of_not_contains _ _ _ h10,
    replaceAll_of_not_contains _ _ _ h11, replaceAll_of_not_contains _ _ _ h12,
    defaulPatch_id _ h13]

theorem run_single_clean (s : List Char) (hcl : cleanLine (s ++ ['\n']))
    (hstr : pyStrip (s ++ ['\n']) = s)
    (hCT : CONST_CREATE_TABLE.isPrefixOf (s ++ ['\n']) = false)
    (hTrg : CONST_CREATE_TRIGGER_START.isPrefixOf (s ++ ['\n']) = false)
    (hVw : CONST_CREATE_VIEW_START.isPrefixOf (s ++ ['\n']) = false) :
    run [s ++ ['\n']] = Except.ok [s ++ ['\n'], CONST_COMMIT] := by
  have hid := rewriteLine_id s hcl hstr
  simp [run, runLines, step, hid, hCT, hTrg, hVw, initSt, fkEmit]

theorem fkEmit_eq_map (entries : List (List Char × List Char)) :
    fkEmit entries =
      entries.map (fun e => CONST_ALTER_TABLE ++ e.1 ++ CONST_ADD ++ fkNormalize e.2) := by
  induction entries with
  | nil => rfl
  | cons e rest ih => cases e; rw [fkEmit, ih]; rfl

theorem run_eq_of_runLines (input : List (List Char)) (s : St)
    (h : runLines initSt input = Except.ok s) :
    run input = Except.ok (s.output ++ fkEmit s.fk_buffer ++ [CONST_COMMIT]) := by
  rw [run, h]

theorem out_last_commit (a b : List (List Char)) :
    (a ++ b ++ [CONST_COMMIT]).getLast? = some CONST_COMMIT := by
  rw [List.append_assoc, ← List.append_assoc]
  exact List.getLast?_concat _

end Migrate

namespace Migrate

/-! ### Claim C1 -/

def c1cexInput : List (List Char) :=
  ["CREATE TABLE t2 (\n".toList, "x INTEGER,\n".toList,
   "FOREIGN KEY (x) REFERENCES y(z),\n".toList, ");\n".toList]

def c1cexOutput : List (List Char) :=
  ["CREATE TABLE t2 (\n".toList, "x INTEGER,\n".toList,
   "FOREIGN KEY (x) REFERENCES y(z)\n".toList, ");\n".toList, CONST_COMMIT]

/-- Claim C1 counterexample: the third input line carries the foreign-key
marker and is processed while a table block is open, yet the run emits no
`ALTER TABLE` line at all — the `CREATE TABLE t2 (` header has no
`EXISTS <name> (` pattern, so `get_table_name` yields `""` and the capture
guard `currentTableName != ""` skips the deferral; the constraint stays
inline in the table block. -/
theorem C1_cex :
    run c1cexInput = Except.ok c1cexOutput ∧
    containsSub CONST_FOREIGN_KEY
      (rewriteLine ("FOREIGN KEY (x) REFERENCES y(z),\n".toList)) = true ∧
    c1cexOutput.filter (fun l => CONST_ALTER_TABLE.isPrefixOf l) = [] :=
  ⟨rfl, rfl, rfl⟩

/-- Claim C1 (amended): for every foreign-key-marker line processed while a
table block with a NONEMPTY extracted table name is open, the driver removes
the line from the block (an empty string is buffered in its place) and
appends exactly one entry to the deferral queue; the final emission then
writes, for each queued entry in order, exactly one line
`ALTER TABLE <name> ADD <constraint>` with a trailing `,\n` normalized by
`fkNormalize`, and this deferred block follows everything written during
the main loop. -/
theorem C1_thm :
    (∀ (s : St) (raw : List Char),
      s.foundTable = true → s.currentTableName ≠ [] →
      CONST_CREATE_TABLE.isPrefixOf (rewriteLine raw) = false →
      containsSub CONST_FOREIGN_KEY (rewriteLine raw) = true →
      step s raw = Except.ok { s with
                                buffer := s.buffer ++ [([] : List Char)],
                                fk_buffer := s.fk_buffer ++ [(s.currentTableName, rewriteLine raw)] }) ∧
    (∀ entries, fkEmit entries =
      entries.map (fun e => CONST_ALTER_TABLE ++ e.1 ++ CONST_ADD ++ fkNormalize e.2)) ∧
    (∀ input s, runLines initSt input = Except.ok s →
      run input = Except.ok (s.output ++ fkEmit s.fk_buffer ++ [CONST_COMMIT])) := by
  refine ⟨?_, fkEmit_eq_map, run_eq_of_runLines⟩
  intro s raw hT hn hCT hFK
  simp [step, hT, hCT, hFK, isEmpty_false_of_ne hn, trg_pre_nil, view_pre_nil, tend_pre_nil]

def stRental : St :=
  { currentTableName := "rental".toList, foundTable := true, foundTrigger := false
    foundView := false, buffer := ["CREATE TABLE IF NOT EXISTS rental (\n".toList]
    fk_buffer := [], aLine := none, output := [], tableCount := 0 }

def c1WitRaw : List Char := "  FOREIGN KEY (cust_id) REFERENCES customer(id),\n".toList

/-- Claim C1 witness: the capture step at a concrete in-table state. -/
theorem C1_wit :
    step stRental c1WitRaw = Except.ok { stRental with
      buffer := stRental.buffer ++ [([] : List Char)],
      fk_buffer := stRental.fk_buffer ++ [(stRental.currentTableName, rewriteLine c1WitRaw)] } :=
  C1_thm.1 stRental c1WitRaw rfl (by decide) rfl rfl

/-! ### Claim C2 -/

def c2cexInput : List (List Char) := ["INSERT INTO t VALUES (\"1\", 2);\n".toList]

/-- Claim C2 counterexample: a row-data line is NOT preserved exactly — the
token substitutions run on every line, so the double quotes inside this
`INSERT` statement's data are stripped from the emitted line. -/
theorem C2_cex :
    run c2cexInput = Except.ok ["INSERT INTO t VALUES (1, 2);\n".toList, CONST_COMMIT] ∧
    ("INSERT INTO t VALUES (1, 2);\n".toList ≠ "INSERT INTO t VALUES (\"1\", 2);\n".toList) :=
  ⟨rfl, by decide⟩

/-- Claim C2 (amended): the substring replacements apply uniformly to every
line, with no data/schema distinction, so row data is not always preserved
exactly (a data line carrying a replaced token, such as a double quote, is
altered); conversely, any data line that is already whitespace-normalized
and contains none of the replaced tokens (no carriage return, tab or double
quote, and none of the rewritten type or literal keywords) is left unchanged
by the rewriter, and passed alone through the run it is written verbatim. -/
theorem C2_thm :
    ∀ s : List Char, cleanLine (s ++ ['\n']) → pyStrip (s ++ ['\n']) = s →
      CONST_CREATE_TABLE.isPrefixOf (s ++ ['\n']) = false →
      CONST_CREATE_TRIGGER_START.isPrefixOf (s ++ ['\n']) = false →
      CONST_CREATE_VIEW_START.isPrefixOf (s ++ ['\n']) = false →
      rewriteLine (s ++ ['\n']) = s ++ ['\n'] ∧
      run [s ++ ['\n']] = Except.ok [s ++ ['\n'], CONST_COMMIT] :=
  fun s h1 h2 h3 h4 h5 =>
    ⟨rewriteLine_id s h1 h2, run_single_clean s h1 h2 h3 h4 h5⟩

def c2WitBody : List Char := "INSERT INTO customer VALUES (1, 5, 2);".toList

/-- Claim C2 witness: a concrete clean data line is preserved verbatim. -/
theorem C2_wit :
    rewriteLine (c2WitBody ++ ['\n']) = c2WitBody ++ ['\n'] ∧
    run [c2WitBody ++ ['\n']] = Except.ok [c2WitBody ++ ['\n'], CONST_COMMIT] :=
  C2_thm c2WitBody (by decide) rfl rfl rfl rfl

end Migrate

namespace Migrate

/-! ### Claim C3 -/

def c3Input : List (List Char) :=
  ["CREATE TABLE IF NOT EXISTS t (\n".toList, "a INTEGER\n".toList, ");\n".toList,
   "CREATE VIEW v AS\n".toList, "SELECT a FROM t;\n".toList]

def c3Output : List (List Char) :=
  ["CREATE TABLE IF NOT EXISTS t (\n".toList, "a INTEGER\n".toList, ");\n".toList,
   "SELECT a FROM t;\n".toList, CONST_COMMIT]

/-- Claim C3: the view block `CREATE VIEW v AS / SELECT a FROM t;` is not
suppressed — its body line `SELECT a FROM t;` reaches the output.  The
view-terminator check reads the stale loop variable `a_line` (the `);` line
left over from the preceding table finalization), which contains `;\n`, so
view mode ends on the `CREATE VIEW` line itself and the body is written as
a normal line. -/
theorem C3_thm :
    run c3Input = Except.ok c3Output ∧
    "SELECT a FROM t;\n".toList ∈ c3Output :=
  ⟨rfl, by decide⟩

/-! ### Claim C4 -/

def c4Input : List (List Char) :=
  ["CREATE TABLE IF NOT EXISTS t (\n".toList, "a INTEGER\n".toList, ");\n".toList,
   "CREATE TRIGGER trg AFTER INSERT ON t BEGIN\n".toList,
   "UPDATE t SET a = 1;\n".toList, "END;\n".toList,
   "INSERT INTO t VALUES (5);\n".toList]

def c4Output : List (List Char) :=
  ["CREATE TABLE IF NOT EXISTS t (\n".toList, "a INTEGER\n".toList, ");\n".toList,
   CONST_COMMIT]

/-- Claim C4: the line `INSERT INTO t VALUES (5);` lies after the trigger
block's `END;` terminator, i.e. outside any table/trigger/view block, yet it
never appears in the output.  The trigger-terminator check tests the stale
`a_line` (the `);` line of the last finalized table) instead of the current
line, so trigger mode never ends and every following line is discarded. -/
theorem C4_thm :
    run c4Input = Except.ok c4Output ∧
    "INSERT INTO t VALUES (5);\n".toList ∉ c4Output :=
  ⟨rfl, by decide⟩

/-! ### Claim C5 -/

def c5Input : List (List Char) :=
  ["CREATE TABLE IF NOT EXISTS t (\n".toList, "a INTEGER,\n".toList]

/-- Claim C5 counterexample: the input opens a `CREATE TABLE` block that
never reaches a `);` line, yet the run does not stop or report anything —
it completes normally, still in table mode, and still writes the deferred
block and `COMMIT;`. -/
theorem C5_cex :
    run c5Input = Except.ok [CONST_COMMIT] ∧
    Except.map St.foundTable (runLines initSt c5Input) = Except.ok true :=
  ⟨rfl, rfl⟩

/-- Claim C5 (amended): an unterminated `CREATE TABLE` block at end of input
is not an error — the buffered block is silently discarded (never flushed to
the output), while the deferred foreign-key lines and the final `COMMIT;`
are emitted anyway, so the run's last output line is always `COMMIT;`. -/
theorem C5_thm :
    ∀ (input : List (List Char)) (s : St),
      runLines initSt input = Except.ok s → s.foundTable = true →
      run input = Except.ok (s.output ++ fkEmit s.fk_buffer ++ [CONST_COMMIT]) ∧
      (s.output ++ fkEmit s.fk_buffer ++ [CONST_COMMIT]).getLast? = some CONST_COMMIT :=
  fun input s h _ => ⟨run_eq_of_runLines input s h, out_last_commit _ _⟩

def c5St : St :=
  { currentTableName := "t".toList, foundTable := true, foundTrigger := false
    foundView := false
    buffer := ["CREATE TABLE IF NOT EXISTS t (\n".toList, "a INTEGER,\n".toList]
    fk_buffer := [], aLine := none, output := [], tableCount := 0 }

/-- Claim C5 witness: the amended statement at the concrete unterminated
input. -/
theorem C5_wit :
    run c5Input = Except.ok (c5St.output ++ fkEmit c5St.fk_buffer ++ [CONST_COMMIT]) ∧
    (c5St.output ++ fkEmit c5St.fk_buffer ++ [CONST_COMMIT]).getLast? = some CONST_COMMIT :=
  C5_thm c5Input c5St rfl rfl

/-! ### Claim C6 -/

def c6Input : List (List Char) :=
  ["CREATE TABLE IF NOT EXISTS t (\n".toList, "a INTEGER,\n".toList,
   "\n".toList, ");\n".toList]

def c6Output : List (List Char) :=
  ["CREATE TABLE IF NOT EXISTS t (\n".toList, "a INTEGER,\n".toList,
   "\n".toList, ");\n".toList, CONST_COMMIT]

/-- Claim C6 counterexample: a blank line (`"\n"`) sits between the last
content line and the `);` terminator.  The reverse scan does NOT skip the
blank line (only deleted `""` lines and `);`-prefixed lines are skipped), so
it stops at `"\n"`, removes nothing, and the column line `a INTEGER,` keeps
its trailing comma in the emitted block. -/
theorem C6_cex :
    run c6Input = Except.ok c6Output ∧
    "a INTEGER,\n".toList ∈ c6Output :=
  ⟨rfl, by decide⟩

/-- Claim C6 (amended): the finalization scans the block in reverse from the
end, skipping exactly the deleted (`""`) lines and the lines starting with
`);`; at the FIRST remaining line — which may be a blank `"\n"` line, blank
lines are not skipped — it removes a trailing `,\n` if present and stops,
leaving every earlier line untouched.  Hence the no-trailing-comma guarantee
holds only when that first scanned line is the last content line. -/
theorem C6_thm :
    ∀ (pre : List (List Char)) (l : List Char) (post : List (List Char)),
      (∀ x ∈ post, commaSkip x = true) → commaSkip l = false →
      commaFix (pre ++ l :: post) =
        pre ++ (if ([',', '\n'] : List Char).isSuffixOf l then commaAdjust l else l) :: post := by
  intro pre l post hpost hl
  rw [commaFix, List.reverse_append, List.reverse_cons]
  rw [List.append_assoc, List.singleton_append]
  rw [commaFixRev_skip post.reverse l pre.reverse (fun x hx => hpost x (List.mem_reverse.mp hx)) hl]
  simp

def c6WitPre : List (List Char) := ["CREATE TABLE IF NOT EXISTS t (\n".toList, "x,\n".toList]

def c6WitPost : List (List Char) := [[], ");\n".toList]

/-- Claim C6 witness: the comma fix at a concrete buffer, skipping a deleted
line and the terminator and trimming the comma of the first content line. -/
theorem C6_wit :
    commaFix (c6WitPre ++ "a INTEGER,\n".toList :: c6WitPost) =
      c6WitPre ++ (if ([',', '\n'] : List Char).isSuffixOf ("a INTEGER,\n".toList) then
        commaAdjust ("a INTEGER,\n".toList) else "a INTEGER,\n".toList) :: c6WitPost :=
  C6_thm c6WitPre ("a INTEGER,\n".toList) c6WitPost (by decide) (by decide)

end Migrate

namespace Migrate

/-! ### Claim C7 -/

/-- Claim C7 (confirmed): on a line containing `BOOLEAN`, the rewriter
renames every `BOOLEAN` to `INTEGER`; then, if the renamed line contains
`TRUE`, exactly the `TRUE` branch fires (`TRUE` becomes `1`, `FALSE` is
never touched on such a line); only if `TRUE` is absent and `FALSE` present
does the `FALSE` branch fire (`FALSE` becomes `0`); with neither literal
the renamed line is kept.  In particular the full rewriter maps
`active BOOLEAN DEFAULT TRUE,` to `active INTEGER DEFAULT 1,`. -/
theorem C7_thm :
    (∀ l : List Char, containsSub CONST_DATATYPE_BOOLEAN l = true →
      (containsSub CONST_BOOL_TRUE
          (replaceAll CONST_DATATYPE_BOOLEAN CONST_DATATYPE_INTEGER l) = true →
        boolStage l = replaceAll CONST_BOOL_TRUE ['1']
          (replaceAll CONST_DATATYPE_BOOLEAN CONST_DATATYPE_INTEGER l)) ∧
      (containsSub CONST_BOOL_TRUE
          (replaceAll CONST_DATATYPE_BOOLEAN CONST_DATATYPE_INTEGER l) = false →
        containsSub CONST_BOOL_FALSE
          (replaceAll CONST_DATATYPE_BOOLEAN CONST_DATATYPE_INTEGER l) = true →
        boolStage l = replaceAll CONST_BOOL_FALSE ['0']
          (replaceAll CONST_DATATYPE_BOOLEAN CONST_DATATYPE_INTEGER l)) ∧
      (containsSub CONST_BOOL_TRUE
          (replaceAll CONST_DATATYPE_BOOLEAN CONST_DATATYPE_INTEGER l) = false →
        containsSub CONST_BOOL_FALSE
          (replaceAll CONST_DATATYPE_BOOLEAN CONST_DATATYPE_INTEGER l) = false →
        boolStage l = replaceAll CONST_DATATYPE_BOOLEAN CONST_DATATYPE_INTEGER l)) ∧
    rewriteLine ("active BOOLEAN DEFAULT TRUE,\n".toList) =
      "active INTEGER DEFAULT 1,\n".toList := by
  refine ⟨?_, rfl⟩
  intro l hb
  refine ⟨fun ht => ?_, fun ht hf => ?_, fun ht hf => ?_⟩
  · simp [boolStage, hb, ht]
  · simp [boolStage, hb, ht, hf]
  · simp [boolStage, hb, ht, hf]

/-- Claim C7 witness: the `TRUE` branch at the concrete scenario line. -/
theorem C7_wit :
    boolStage ("active BOOLEAN DEFAULT TRUE,\n".toList) =
      replaceAll CONST_BOOL_TRUE ['1']
        (replaceAll CONST_DATATYPE_BOOLEAN CONST_DATATYPE_INTEGER
          ("active BOOLEAN DEFAULT TRUE,\n".toList)) :=
  (C7_thm.1 ("active BOOLEAN DEFAULT TRUE,\n".toList) rfl).1 rfl

/-! ### Claim C8 -/

def c8Input : List (List Char) :=
  ["CREATE TABLE t (id INTEGER PRIMARY KEY AUTOINCREMENT, name TEXT);\n".toList]

/-- Claim C8 counterexample: for the single-line table definition, the
output is just `COMMIT;` — no line defining column `id` (and no
`SERIAL PRIMARY KEY` token) is ever emitted, because the terminator test
`line.startswith(");")` never fires on a line that merely ENDS with `);`. -/
theorem C8_cex :
    run c8Input = Except.ok [CONST_COMMIT] ∧
    containsSub ("id".toList) CONST_COMMIT = false ∧
    containsSub ("SERIAL".toList) CONST_COMMIT = false :=
  ⟨rfl, rfl, rfl⟩

/-- Claim C8 (amended): on the single-line input the driver enters table
mode and buffers the line, but the block is never finalized — the terminator
check requires a line STARTING with `);` — so at end of input the driver is
still in table mode, nothing was written during the loop, the buffered
definition is discarded, and the whole output is the commit line. -/
theorem C8_thm :
    Except.map St.foundTable (runLines initSt c8Input) = Except.ok true ∧
    Except.map St.output (runLines initSt c8Input) = Except.ok [] ∧
    Except.map St.buffer (runLines initSt c8Input) =
      Except.ok ["CREATE TABLE t (id INTEGER PRIMARY KEY AUTOINCREMENT, name TEXT);\n".toList] ∧
    run c8Input = Except.ok [CONST_COMMIT] :=
  ⟨rfl, rfl, rfl, rfl⟩

/-! ### Claim C9 -/

def c9Input : List (List Char) :=
  ["CREATE TABLE orders (\n".toList, "oid INTEGER,\n".toList,
   "FOREIGN KEY (oid) REFERENCES o(id)\n".toList, ");\n".toList]

def c9Output : List (List Char) :=
  ["CREATE TABLE orders (\n".toList, "oid INTEGER,\n".toList,
   "FOREIGN KEY (oid) REFERENCES o(id)\n".toList, ");\n".toList, CONST_COMMIT]

/-- Claim C9 counterexample: the foreign-key line is captured while the open
block's extracted table name is empty (`CREATE TABLE orders (` has no
`EXISTS <name> (` pattern), and NO `ALTER TABLE` line is emitted — the
constraint is not stored in the deferral queue at all; it stays inline in
the emitted table block. -/
theorem C9_cex :
    run c9Input = Except.ok c9Output ∧
    c9Output.filter (fun l => CONST_ALTER_TABLE.isPrefixOf l) = [] ∧
    "FOREIGN KEY (oid) REFERENCES o(id)\n".toList ∈ c9Output :=
  ⟨rfl, rfl, by decide⟩

/-- Claim C9 (amended): when a foreign-key-marker line arrives while the
open table block's extracted name is empty, the capture guard
`currentTableName != ""` fails: the deferral queue is left unchanged and
the line is simply appended to the table block (to be emitted inline); no
`ALTER TABLE` line ever results from it. -/
theorem C9_thm :
    ∀ (s : St) (raw : List Char),
      s.foundTable = true → s.currentTableName = [] →
      CONST_CREATE_TABLE.isPrefixOf (rewriteLine raw) = false →
      CONST_CREATE_TRIGGER_START.isPrefixOf (rewriteLine raw) = false →
      CONST_CREATE_VIEW_START.isPrefixOf (rewriteLine raw) = false →
      CONST_TABLE_END.isPrefixOf (rewriteLine raw) = false →
      step s raw = Except.ok { s with buffer := s.buffer ++ [rewriteLine raw] } := by
  intro s raw hT hn hCT hTrg hVw hEnd
  simp [step, hT, hn, hCT, hTrg, hVw, hEnd]

def stAnon : St :=
  { currentTableName := [], foundTable := true, foundTrigger := false
    foundView := false, buffer := ["CREATE TABLE orders (\n".toList]
    fk_buffer := [], aLine := none, output := [], tableCount := 0 }

def c9WitRaw : List Char := "FOREIGN KEY (oid) REFERENCES o(id),\n".toList

/-- Claim C9 witness: the no-capture step at a concrete anonymous-table
state. -/
theorem C9_wit :
    step stAnon c9WitRaw = Except.ok { stAnon with buffer := stAnon.buffer ++ [rewriteLine c9WitRaw] } :=
  C9_thm stAnon c9WitRaw rfl rfl rfl rfl rfl rfl

/-! ### Claim C10 -/

/-- Claim C10 (confirmed): if a `CREATE TRIGGER` or `CREATE VIEW` line is
processed while no table block is open and `a_line` has never been assigned
(no table block has been finalized yet, modelled by `aLine = none`), the
trigger/view branch reads the unassigned variable and the step fails with
the `NameError` (`Except.error ()`), on that very line; in particular a run
whose first line is a `CREATE TRIGGER` statement fails. -/
theorem C10_thm :
    (∀ (s : St) (raw : List Char),
      s.foundTable = false → s.currentTableName = [] → s.aLine = none →
      (CONST_CREATE_TRIGGER_START.isPrefixOf (rewriteLine raw) = true ∨
       CONST_CREATE_VIEW_START.isPrefixOf (rewriteLine raw) = true) →
      step s raw = Except.error ()) ∧
    run ["CREATE TRIGGER trg BEFORE UPDATE ON t BEGIN\n".toList] = Except.error () := by
  refine ⟨?_, rfl⟩
  intro s raw hT hn hA h
  rcases h with h | h
  · obtain ⟨t, ht⟩ := List.isPrefixOf_iff_prefix.mp h
    have hCT : CONST_CREATE_TABLE.isPrefixOf (rewriteLine raw) = false := by
      rw [← ht]; exact ct_not_pre_trg t
    simp [step, hT, hn, hCT, h, hA]
  · obtain ⟨t, ht⟩ := List.isPrefixOf_iff_prefix.mp h
    have hCT : CONST_CREATE_TABLE.isPrefixOf (rewriteLine raw) = false := by
      rw [← ht]; exact ct_not_pre_view t
    have hTrg : CONST_CREATE_TRIGGER_START.isPrefixOf (rewriteLine raw) = false := by
      rw [← ht]; exact trg_not_pre_view t
    cases hft : s.foundTrigger
    · simp [step, hT, hn, hCT, hTrg, h, hA, hft]
    · simp [step, hT, hn, hCT, hTrg, h, hA, hft]

/-- Claim C10 witness: the error step at the initial state on a concrete
`CREATE VIEW` line. -/
theorem C10_wit :
    step initSt ("CREATE VIEW v AS SELECT 1;\n".toList) = Except.error () :=
  C10_thm.1 initSt ("CREATE VIEW v AS SELECT 1;\n".toList) rfl rfl rfl (Or.inr rfl)

end Migrate
